import Mathlib

/-
  Verification of the Logging library (src/src/logging/logging.c, logging.h).

  The C module keeps four process-wide globals:
    static unsigned short _level = 0;
    static char _timestamp_printed = 1;
    static FILE *_destination = NULL;
    static pthread_mutex_t *print_mutex;   -- zero-initialised, i.e. NULL
  and exposes init/free, setters/getters, a formatted write path
  (logging_log), and an external-write handoff
  (logging_aquire_fd / logging_release_fd).

  Shallow embedding: the globals become a LoggerState record; every C
  function becomes a Lean function from (and, for mutators, to) that
  state.  Output is modelled as the exact sequence of events the call
  performs on the process: mutex acquisition/release, each fprintf call
  as one write of the bytes it renders, and the final fflush.  FILE*
  handles are an abstract type with NULL modelled as Option.none.
  unsigned short values are Nat (no arithmetic is performed on them, only
  comparisons, so no overflow can occur inside the modelled code; the C
  type bounds them to 0..65535, which theorems carry as hypotheses where
  a claim ranges over that interval).  The wall-clock time read by
  timestamp_print via time/localtime_r is passed in as an explicit
  `Tm` argument (the broken-down calendar time).
-/

namespace Logging

/-- Abstract model of a C `FILE *` handle (non-NULL values).
`NULL` is represented as `Option.none` around this type. -/
inductive Fd where
  | stdout
  | stderr
  | file (id : Nat)
deriving DecidableEq, Repr

/-- Model of `struct tm` as filled in by `localtime_r`: the fields
`timestamp_print` reads.  `tm_mon` is the raw 0-indexed month and
`tm_year` counts years since 1900, exactly as in C. -/
structure Tm where
  tm_sec : Nat
  tm_min : Nat
  tm_hour : Nat
  tm_mday : Nat
  tm_mon : Nat
  tm_year : Nat
deriving DecidableEq, Repr

/-- The process-wide mutable globals of logging.c, gathered in a record.
`printMutex` is the `print_mutex` pointer (`none` = NULL); `lockHeld`
tracks whether the mutex is currently locked, so that the lock protocol
of the acquire/release handoff can be stated. -/
structure LoggerState where
  level : Nat
  tsPrinted : Nat
  destination : Option Fd
  printMutex : Option Nat
  lockHeld : Bool
deriving DecidableEq, Repr

/-- One observable action of a call: locking or unlocking `print_mutex`,
one `fprintf`/`vfprintf` call writing the given bytes to the
destination, or an `fflush`. -/
inductive Event where
  | lockAcq
  | lockRel
  | write (bytes : List Char)
  | flush
deriving DecidableEq, Repr

/-- The state of the globals at program start, from the static
initialisers in logging.c (`_level = 0`, `_timestamp_printed = 1`,
`_destination = NULL`, `print_mutex` zero-initialised to NULL). -/
def startupState : LoggerState :=
  { level := 0, tsPrinted := 1, destination := none,
    printMutex := none, lockHeld := false }

/-- `#define LOGGING_LEVEL_NONE 0` from logging.h. -/
def LOGGING_LEVEL_NONE : Nat := 0

/-- `#define LOGGING_LEVEL_CRITICAL 1` from logging.h. -/
def LOGGING_LEVEL_CRITICAL : Nat := 1

/-- `#define LOGGING_LEVEL_ERROR 100` from logging.h. -/
def LOGGING_LEVEL_ERROR : Nat := 100

/-- `#define LOGGING_LEVEL_WARNING 1000` from logging.h. -/
def LOGGING_LEVEL_WARNING : Nat := 1000

/-- `#define LOGGING_LEVEL_INFO 10000` from logging.h. -/
def LOGGING_LEVEL_INFO : Nat := 10000

/-- `#define LOGGING_LEVEL_DEBUG 50000` from logging.h. -/
def LOGGING_LEVEL_DEBUG : Nat := 50000

/-- `#define LOGGING_LEVEL_ALL 65535` from logging.h. -/
def LOGGING_LEVEL_ALL : Nat := 65535

/-- `logging_init`: sets `_destination = stdout`, `_level =
LOGGING_LEVEL_ALL`, then `print_mutex = malloc(...)` followed by
`pthread_mutex_init(print_mutex, NULL)`.  The result of `malloc` is the
explicit `mutexAlloc` argument (`none` models an allocation failure
returning NULL).  The C code does not check that result: it stores it
and passes it to `pthread_mutex_init` unconditionally (on NULL that call
is undefined behaviour in C; the embedding records only the stored
pointer).  Note that `_timestamp_printed` is NOT assigned here. -/
def logging_init (s : LoggerState) (mutexAlloc : Option Nat) : LoggerState :=
  { s with destination := some Fd.stdout,
           level := LOGGING_LEVEL_ALL,
           printMutex := mutexAlloc }

/-- `logging_set_level(unsigned short level)`: `_level = level;`. -/
def logging_set_level (s : LoggerState) (level : Nat) : LoggerState :=
  { s with level := level }

/-- `logging_get_level()`: `return _level;`. -/
def logging_get_level (s : LoggerState) : Nat :=
  s.level

/-- `logging_set_destination(FILE *destination)`:
`if(destination != NULL) _destination = destination;`. -/
def logging_set_destination (s : LoggerState) (destination : Option Fd) :
    LoggerState :=
  if destination ≠ none then { s with destination := destination } else s

/-- `logging_get_destination()`: `return _destination;`. -/
def logging_get_destination (s : LoggerState) : Option Fd :=
  s.destination

/-- `logging_set_timestamp_printed(char timestamp_printed)`:
`_timestamp_printed = timestamp_printed;` (a `char`, modelled as its
integer value; the write path tests it for non-zero). -/
def logging_set_timestamp_printed (s : LoggerState) (timestamp_printed : Nat) :
    LoggerState :=
  { s with tsPrinted := timestamp_printed }

/-- Rendering of the C conversion `%0Nd` for a non-negative value: the
decimal digits, zero-padded on the left to at least `width` characters. -/
def cpad (width n : Nat) : List Char :=
  List.replicate (width - (Nat.repr n).toList.length) '0' ++ (Nat.repr n).toList

/-- `timestamp_print()`: renders the broken-down local time with
`fprintf(_destination, "%02d.%02d.%04d/%02d:%02d:%02d", tm->tm_mday,
tm->tm_mon, (tm->tm_year + 1900), tm->tm_hour, tm->tm_min,
tm->tm_sec)`.  The month is the raw 0-indexed `tm_mon`. -/
def timestamp_print (tm : Tm) : List Char :=
  cpad 2 tm.tm_mday ++ ".".toList ++ cpad 2 tm.tm_mon ++ ".".toList ++
    cpad 4 (tm.tm_year + 1900) ++ "/".toList ++ cpad 2 tm.tm_hour ++
    ":".toList ++ cpad 2 tm.tm_min ++ ":".toList ++ cpad 2 tm.tm_sec

/-- The tier label chosen by the if/else-if chain in `logging_log`
(`level >= LOGGING_LEVEL_DEBUG` down to the final else). -/
def tier (level : Nat) : List Char :=
  if LOGGING_LEVEL_DEBUG ≤ level then "DEBUG".toList
  else if LOGGING_LEVEL_INFO ≤ level then "INFO".toList
  else if LOGGING_LEVEL_WARNING ≤ level then "WARNING".toList
  else if LOGGING_LEVEL_ERROR ≤ level then "ERROR".toList
  else "CRITICAL".toList

/-- The bytes of the single `fprintf(_destination, "[%d:<TIER>", level)`
call selected by the if/else-if chain in `logging_log`. -/
def tagWrite (level : Nat) : List Char :=
  "[".toList ++ (Nat.repr level).toList ++ ":".toList ++ tier level

/-- `logging_log(module, level, message, ...)`.  The caller's
printf-style `message`/varargs pair is abstracted as the already
rendered `body` bytes (the substitution itself is the C library's
`vfprintf` and out of scope); the current broken-down local time is the
`tm` argument.  Returns the resulting global state together with the
exact sequence of events the call performs: nothing at all when
`level <= _level` fails, otherwise lock, the fprintf writes in source
order (tag, optional `@` + timestamp, `"] "`, `"<module>: "`, body,
newline), unlock, and the final `fflush`. -/
def logging_log (s : LoggerState) (tm : Tm) (module : List Char)
    (level : Nat) (body : List Char) : LoggerState × List Event :=
  if level ≤ s.level then
    (s,
      [Event.lockAcq, Event.write (tagWrite level)] ++
        (if s.tsPrinted ≠ 0 then
          [Event.write "@".toList, Event.write (timestamp_print tm)]
        else []) ++
        [Event.write "] ".toList,
         Event.write (module ++ ": ".toList),
         Event.write body,
         Event.write "\n".toList,
         Event.lockRel, Event.flush])
  else
    (s, [])

/-- `logging_aquire_fd(level)`: if `level <= _level`, first
`logging_log("Logging", level, "*** External logging started...")`,
then `pthread_mutex_lock(print_mutex)` and `return _destination`;
otherwise `return NULL` with no other effect. -/
def logging_aquire_fd (s : LoggerState) (tm : Tm) (level : Nat) :
    Option Fd × LoggerState × List Event :=
  if level ≤ s.level then
    let r := logging_log s tm "Logging".toList level
      "*** External logging started...".toList
    (s.destination, { r.1 with lockHeld := true }, r.2 ++ [Event.lockAcq])
  else
    (none, s, [])

/-- `logging_release_fd(level)`: `pthread_mutex_unlock(print_mutex)`
unconditionally, then `logging_log("Logging", level, "*** External
logging ended...")`. -/
def logging_release_fd (s : LoggerState) (tm : Tm) (level : Nat) :
    LoggerState × List Event :=
  let s0 := { s with lockHeld := false }
  let r := logging_log s0 tm "Logging".toList level
    "*** External logging ended...".toList
  (r.1, Event.lockRel :: r.2)

/-- The bytes a sequence of events writes to the destination stream, in
order. -/
def outputBytes : List Event → List Char
  | [] => []
  | Event.write bs :: es => bs ++ outputBytes es
  | _ :: es => outputBytes es

/-- How many times a sequence of events acquires `print_mutex`. -/
def lockAcquisitions (es : List Event) : Nat :=
  es.countP fun e => match e with
    | Event.lockAcq => true
    | _ => false

/-- The named tiers of the spec with their lower severity bounds
(CRITICAL from 0, ERROR from 100, WARNING from 1000, INFO from 10000,
DEBUG from 50000). -/
def namedTiers : List (Nat × List Char) :=
  [(0, "CRITICAL".toList), (100, "ERROR".toList), (1000, "WARNING".toList),
   (10000, "INFO".toList), (50000, "DEBUG".toList)]

/-- Spec-side description of the tier label: the highest named tier
whose lower bound is ≤ the severity value (classification by largest
matching threshold, not exact match). -/
def claimTier (sev : Nat) : List Char :=
  (namedTiers.foldl
    (fun best t => if t.1 ≤ sev ∧ best.1 ≤ t.1 then t else best)
    (0, "CRITICAL".toList)).2

/-- Spec-side description of one emitted line, from the byte-exact
output contract: `[<severity-int>:<TIER>` then, only if the timestamp
flag (a C `char`, set = non-zero) is set, `@<timestamp>`, then `] `,
then `<module>: `, then the formatted body, then a newline. -/
def specLine (level tsPrinted : Nat) (ts module body : List Char) :
    List Char :=
  "[".toList ++ (Nat.repr level).toList ++ ":".toList ++ tier level ++
    (if tsPrinted ≠ 0 then "@".toList ++ ts else []) ++ "] ".toList ++
    module ++ ": ".toList ++ body ++ "\n".toList

/-- A fixed broken-down time used to instantiate theorems at concrete
inputs: 14:30:07 on the 2nd, raw month 0 (January), year 2024. -/
def tmW : Tm :=
  { tm_sec := 7, tm_min := 30, tm_hour := 14, tm_mday := 2, tm_mon := 0,
    tm_year := 124 }

/-- `logging_log` never changes the globals: both branches return the
incoming state unchanged. -/
theorem logging_log_state (s : LoggerState) (tm : Tm) (module : List Char)
    (level : Nat) (body : List Char) :
    (logging_log s tm module level body).1 = s := by
  rw [logging_log]
  split <;> rfl

/-- C1: a `logging_log` call whose severity is numerically greater than
the current threshold is a complete no-op (state unchanged, no events at
all: nothing written, the lock never taken); a call with severity ≤
threshold leaves the state unchanged and acquires the lock exactly once,
emitting its single message; and emission is monotonic in severity: if a
severity produces output then so does every more severe (numerically
smaller) one. -/
theorem logging_log_filter (s : LoggerState) (tm : Tm) (module : List Char)
    (level : Nat) (body : List Char) :
    (s.level < level → logging_log s tm module level body = (s, [])) ∧
    (level ≤ s.level →
      (logging_log s tm module level body).1 = s ∧
      lockAcquisitions (logging_log s tm module level body).2 = 1) ∧
    (∀ level2, level2 ≤ level →
      (logging_log s tm module level body).2 ≠ [] →
      (logging_log s tm module level2 body).2 ≠ []) := by
  refine ⟨?_, ?_, ?_⟩
  · intro h
    rw [logging_log, if_neg (by omega)]
  · intro h
    refine ⟨logging_log_state .., ?_⟩
    rw [logging_log, if_pos h]
    by_cases hts : s.tsPrinted ≠ 0 <;>
      simp [hts, lockAcquisitions, List.countP_append, List.countP_cons]
  · intro level2 h12 hne
    by_cases h : level ≤ s.level
    · rw [logging_log, if_pos (le_trans h12 h)]
      simp
    · rw [logging_log, if_neg h] at hne
      simp at hne

/-- C1 witness: at threshold 0 (the startup state) a severity-1 call is
a no-op, and after `logging_init` (threshold 65535) a severity-1 call
takes the lock exactly once. -/
theorem logging_log_filter_witness :
    logging_log startupState tmW "M".toList 1 "b".toList =
      (startupState, []) ∧
    lockAcquisitions
      (logging_log (logging_init startupState (some 0)) tmW "M".toList 1
        "b".toList).2 = 1 :=
  ⟨(logging_log_filter startupState tmW "M".toList 1 "b".toList).1
      (by decide),
   ((logging_log_filter (logging_init startupState (some 0)) tmW
        "M".toList 1 "b".toList).2.1 (by decide)).2⟩

/-- C2: for every severity 0–65535 the tier label selected by
`logging_log` is the highest named tier whose lower bound is ≤ the
severity, with the concrete ranges CRITICAL 0–99, ERROR 100–999,
WARNING 1000–9999, INFO 10000–49999, DEBUG 50000–65535. -/
theorem tier_mapping (sev : Nat) (hsev : sev ≤ 65535) :
    tier sev = claimTier sev ∧
    (sev ≤ 99 → tier sev = "CRITICAL".toList) ∧
    (100 ≤ sev ∧ sev ≤ 999 → tier sev = "ERROR".toList) ∧
    (1000 ≤ sev ∧ sev ≤ 9999 → tier sev = "WARNING".toList) ∧
    (10000 ≤ sev ∧ sev ≤ 49999 → tier sev = "INFO".toList) ∧
    (50000 ≤ sev → tier sev = "DEBUG".toList) := by
  refine ⟨?_, ?_, ?_, ?_, ?_, ?_⟩ <;>
    [skip; intro h; intro h; intro h; intro h; intro h] <;>
    simp only [tier, claimTier, namedTiers, LOGGING_LEVEL_DEBUG,
      LOGGING_LEVEL_INFO, LOGGING_LEVEL_WARNING, LOGGING_LEVEL_ERROR,
      List.foldl] <;>
    split_ifs <;> first | rfl | omega

/-- C2 witness: at the range boundaries 0, 99, 100, 999, 1000, 9999,
10000, 49999, 50000 and 65535 the code's tier matches the spec's
highest-matching-tier rule and the named label. -/
theorem tier_mapping_witness :
    tier 0 = claimTier 0 ∧ tier 0 = "CRITICAL".toList ∧
    tier 99 = "CRITICAL".toList ∧ tier 100 = "ERROR".toList ∧
    tier 999 = "ERROR".toList ∧ tier 1000 = "WARNING".toList ∧
    tier 9999 = "WARNING".toList ∧ tier 10000 = "INFO".toList ∧
    tier 49999 = "INFO".toList ∧ tier 50000 = "DEBUG".toList ∧
    tier 65535 = "DEBUG".toList :=
  ⟨(tier_mapping 0 (by decide)).1,
   (tier_mapping 0 (by decide)).2.1 (by decide),
   (tier_mapping 99 (by decide)).2.1 (by decide),
   (tier_mapping 100 (by decide)).2.2.1 (by decide),
   (tier_mapping 999 (by decide)).2.2.1 (by decide),
   (tier_mapping 1000 (by decide)).2.2.2.1 (by decide),
   (tier_mapping 9999 (by decide)).2.2.2.1 (by decide),
   (tier_mapping 10000 (by decide)).2.2.2.2.1 (by decide),
   (tier_mapping 49999 (by decide)).2.2.2.2.1 (by decide),
   (tier_mapping 50000 (by decide)).2.2.2.2.2 (by decide),
   (tier_mapping 65535 (by decide)).2.2.2.2.2 (by decide)⟩

/-- C7: `logging_set_destination` with NULL is a no-op (the destination
read back is unchanged), and with a non-NULL handle the destination
read back is that handle. -/
theorem set_destination_contract (s : LoggerState) :
    logging_get_destination (logging_set_destination s none) =
      logging_get_destination s ∧
    ∀ d : Fd,
      logging_get_destination (logging_set_destination s (some d)) =
        some d := by
  constructor
  · simp [logging_set_destination, logging_get_destination]
  · intro d
    simp [logging_set_destination, logging_get_destination]

/-- C8: evaluation of `logging_init` at the failing input where
`malloc` returns NULL: the function still completes the assignments and
returns normally, leaving `print_mutex` NULL — initialization does not
fail fatally in any controlled way (the unchecked result is also passed
to `pthread_mutex_init`, which is undefined behaviour on NULL). -/
theorem init_alloc_failure_continues :
    logging_init startupState none =
      { startupState with
          destination := some Fd.stdout,
          level := LOGGING_LEVEL_ALL } ∧
    (logging_init startupState none).printMutex = none :=
  ⟨rfl, rfl⟩

/-- C3: every emitted message is byte-exactly `[<severity
decimal>:<TIER>`, then `@<timestamp>` exactly when the timestamp flag is
non-zero, then `] `, then `<module>: `, then the formatted body, then a
newline — the spec's output contract `specLine`. -/
theorem logging_log_line_format (s : LoggerState) (tm : Tm)
    (module : List Char) (level : Nat) (body : List Char)
    (h : level ≤ s.level) :
    outputBytes (logging_log s tm module level body).2 =
      specLine level s.tsPrinted (timestamp_print tm) module body := by
  rw [logging_log, if_pos h]
  by_cases hts : s.tsPrinted ≠ 0 <;>
    simp [hts, outputBytes, specLine, tagWrite, List.append_assoc]

/-- C3 witness: the scenario line `log("Net", 100, ...)` after `init`
matches the contract shape at a concrete time. -/
theorem logging_log_line_format_witness :
    outputBytes
      (logging_log (logging_init startupState (some 0)) tmW "Net".toList
        100 "conn failed: timeout".toList).2 =
      specLine 100 1 (timestamp_print tmW) "Net".toList
        "conn failed: timeout".toList :=
  logging_log_line_format (logging_init startupState (some 0)) tmW
    "Net".toList 100 "conn failed: timeout".toList (by decide)

/-- C4: `logging_aquire_fd` with severity above the threshold returns
NULL immediately with no events (no lock, no output); otherwise it is
exactly: the framing `logging_log("Logging", level, ...)` events,
followed by the lock acquisition, returning the current destination
(which is non-NULL whenever the destination is non-NULL, as it is after
`init`). -/
theorem aquire_fd_contract (s : LoggerState) (tm : Tm) (level : Nat) :
    (s.level < level → logging_aquire_fd s tm level = (none, s, [])) ∧
    (level ≤ s.level →
      logging_aquire_fd s tm level =
        (s.destination, { s with lockHeld := true },
          (logging_log s tm "Logging".toList level
            "*** External logging started...".toList).2 ++
            [Event.lockAcq]) ∧
      (s.destination ≠ none → (logging_aquire_fd s tm level).1 ≠ none)) := by
  constructor
  · intro h
    rw [logging_aquire_fd, if_neg (by omega)]
  · intro h
    have hmain : logging_aquire_fd s tm level =
        (s.destination, { s with lockHeld := true },
          (logging_log s tm "Logging".toList level
            "*** External logging started...".toList).2 ++
            [Event.lockAcq]) := by
      simp [logging_aquire_fd, h, logging_log_state]
    refine ⟨hmain, ?_⟩
    intro hd
    rw [hmain]
    exact hd

/-- C4 witness: at startup (threshold 0) severity 1 yields NULL and no
events; after `init` (threshold 65535) severity 1 yields the framing
events plus lock and a non-NULL handle. -/
theorem aquire_fd_contract_witness :
    logging_aquire_fd startupState tmW 1 = (none, startupState, []) ∧
    logging_aquire_fd (logging_init startupState (some 0)) tmW 1 =
      ((logging_init startupState (some 0)).destination,
        { logging_init startupState (some 0) with lockHeld := true },
        (logging_log (logging_init startupState (some 0)) tmW
          "Logging".toList 1
          "*** External logging started...".toList).2 ++ [Event.lockAcq]) ∧
    (logging_aquire_fd (logging_init startupState (some 0)) tmW 1).1 ≠
      none :=
  ⟨(aquire_fd_contract startupState tmW 1).1 (by decide),
   ((aquire_fd_contract (logging_init startupState (some 0)) tmW 1).2
      (by decide)).1,
   ((aquire_fd_contract (logging_init startupState (some 0)) tmW 1).2
      (by decide)).2 (by decide)⟩

/-- C5: with the timestamp flag non-zero every emitted line carries
`@<timestamp>` between the tag and `] `; with the flag zero the segment
is absent entirely; and `timestamp_print` renders
DD.MM.YYYY/HH:MM:SS with the raw 0-indexed month and zero-padded
fields — concretely, January (raw month 0) renders as `00` and November
(raw month 10) as `10`. -/
theorem timestamp_format (s : LoggerState) (tm : Tm) (module : List Char)
    (level : Nat) (body : List Char) (h : level ≤ s.level) :
    (s.tsPrinted ≠ 0 →
      outputBytes (logging_log s tm module level body).2 =
        tagWrite level ++ "@".toList ++ timestamp_print tm ++
          "] ".toList ++ module ++ ": ".toList ++ body ++ "\n".toList) ∧
    (s.tsPrinted = 0 →
      outputBytes (logging_log s tm module level body).2 =
        tagWrite level ++ "] ".toList ++ module ++ ": ".toList ++ body ++
          "\n".toList) ∧
    timestamp_print tmW = "02.00.2024/14:30:07".toList ∧
    timestamp_print
        { tm_sec := 56, tm_min := 59, tm_hour := 23, tm_mday := 31,
          tm_mon := 10, tm_year := 110 } =
      "31.10.2010/23:59:56".toList := by
  refine ⟨?_, ?_, by decide, by decide⟩
  · intro hts
    rw [logging_log, if_pos h]
    simp [hts, outputBytes, List.append_assoc]
  · intro hts
    rw [logging_log, if_pos h]
    simp [hts, outputBytes, List.append_assoc]

/-- C5 witness: after `init` (flag 1) the line carries the timestamp
segment; after setting the flag to 0 it does not. -/
theorem timestamp_format_witness :
    outputBytes
      (logging_log (logging_init startupState (some 0)) tmW "M".toList 1
        "b".toList).2 =
      tagWrite 1 ++ "@".toList ++ timestamp_print tmW ++ "] ".toList ++
        "M".toList ++ ": ".toList ++ "b".toList ++ "\n".toList ∧
    outputBytes
      (logging_log
        (logging_set_timestamp_printed (logging_init startupState (some 0))
          0) tmW "M".toList 1 "b".toList).2 =
      tagWrite 1 ++ "] ".toList ++ "M".toList ++ ": ".toList ++
        "b".toList ++ "\n".toList :=
  ⟨(timestamp_format (logging_init startupState (some 0)) tmW "M".toList 1
      "b".toList (by decide)).1 (by decide),
   (timestamp_format
      (logging_set_timestamp_printed (logging_init startupState (some 0))
        0) tmW "M".toList 1 "b".toList (by decide)).2.1 (by decide)⟩

/-- C6 counterexample: `logging_init` does not itself establish the
timestamp default — applied to a state whose flag was set to 0, the
flag stays 0 after `init` (the on-default comes from the static
initialiser of `_timestamp_printed`, not from `logging_init`). -/
theorem init_timestamp_default_counterexample :
    (logging_init (logging_set_timestamp_printed startupState 0)
      (some 0)).tsPrinted = 0 :=
  rfl

/-- C6 (amended): after `logging_init` from the process-start state
(with the allocation succeeding) the destination is stdout, the
threshold is 65535, the timestamp flag is on and the mutex pointer is
non-NULL; but `logging_init` itself only sets destination, threshold
and mutex — it leaves the timestamp flag of any incoming state
untouched, the flag's default coming from static initialisation. -/
theorem init_defaults (mutexAlloc : Option Nat) (h : mutexAlloc ≠ none) :
    (logging_init startupState mutexAlloc).destination = some Fd.stdout ∧
    (logging_init startupState mutexAlloc).level = LOGGING_LEVEL_ALL ∧
    (logging_init startupState mutexAlloc).tsPrinted ≠ 0 ∧
    (logging_init startupState mutexAlloc).printMutex ≠ none ∧
    ∀ s : LoggerState, (logging_init s mutexAlloc).tsPrinted = s.tsPrinted := by
  refine ⟨rfl, rfl, ?_, h, fun _ => rfl⟩
  simp [logging_init, startupState]

/-- C6 witness: instantiated at a successful allocation. -/
theorem init_defaults_witness :
    (logging_init startupState (some 0)).destination = some Fd.stdout ∧
    (logging_init startupState (some 0)).level = LOGGING_LEVEL_ALL ∧
    (logging_init startupState (some 0)).tsPrinted ≠ 0 ∧
    (logging_init startupState (some 0)).printMutex ≠ none ∧
    ∀ s : LoggerState, (logging_init s (some 0)).tsPrinted = s.tsPrinted :=
  init_defaults (some 0) (by decide)

/-- C10: `logging_release_fd` releases the lock unconditionally, but its
closing framing line goes through the severity filter evaluated at
release time: above the threshold the events are just the unlock, at or
below they are the unlock followed by the closing `logging_log` events.
Concretely, acquiring at severity 50000 under threshold 65535, then
lowering the threshold to 0, then releasing at 50000 yields an opening
frame with no closing frame. -/
theorem release_fd_contract (s : LoggerState) (tm : Tm) (level : Nat) :
    (logging_release_fd s tm level).1.lockHeld = false ∧
    (s.level < level →
      (logging_release_fd s tm level).2 = [Event.lockRel]) ∧
    (level ≤ s.level →
      (logging_release_fd s tm level).2 =
        Event.lockRel ::
          (logging_log { s with lockHeld := false } tm "Logging".toList
            level "*** External logging ended...".toList).2) ∧
    (logging_aquire_fd (logging_init startupState (some 0)) tmW
        50000).2.2 ≠ [] ∧
    (logging_release_fd
        (logging_set_level
          (logging_aquire_fd (logging_init startupState (some 0)) tmW
            50000).2.1 0) tmW 50000).2 = [Event.lockRel] := by
  refine ⟨?_, ?_, ?_, by decide, by decide⟩
  · simp [logging_release_fd, logging_log_state]
  · intro h
    simp [logging_release_fd, logging_log, Nat.not_le.mpr h]
  · intro h
    simp [logging_release_fd]

/-- C10 witness: at startup (threshold 0) releasing at severity 1 emits
only the unlock; after `init` (threshold 65535) releasing at severity 1
emits the unlock followed by the closing framing events. -/
theorem release_fd_contract_witness :
    (logging_release_fd startupState tmW 1).2 = [Event.lockRel] ∧
    (logging_release_fd (logging_init startupState (some 0)) tmW 1).2 =
      Event.lockRel ::
        (logging_log
          { logging_init startupState (some 0) with lockHeld := false }
          tmW "Logging".toList 1
          "*** External logging ended...".toList).2 :=
  ⟨(release_fd_contract startupState tmW 1).2.1 (by decide),
   (release_fd_contract (logging_init startupState (some 0)) tmW 1).2.2.1
     (by decide)⟩

end Logging
